import Mathlib

/-!
Shallow embedding of the VALORANT companion-app API client
(`src/unnamed/part_000`, the desktop-shell variant, together with the
HTTP shim and the standalone-process variant found in
`src/src/backend/fetch.ts`).

JavaScript conventions used throughout the embedding:
* `Option` models a possibly-`undefined` JavaScript value (`none` = `undefined`).
* A JavaScript number field that can be `NaN` is modelled as `Option Int`
  (`none` = `NaN`); the programs only ever produce integral numbers.
* Template-literal interpolation of such values is modelled by `jsStr` /
  `jsNumStr`, which render `undefined` / `NaN` exactly as JavaScript does.
-/

/-- Interpolation of a possibly-undefined JavaScript string into a template
literal: `undefined` renders as the text "undefined". -/
def jsStr : Option String → String
  | none => "undefined"
  | some s => s

/-- Interpolation of a JavaScript number (possibly NaN, modelled as `none`)
into a template literal. -/
def jsNumStr : Option Int → String
  | none => "NaN"
  | some n => toString n

/-- JavaScript truthiness of a possibly-undefined string: `undefined` and the
empty string are falsy, every other string is truthy. -/
def jsTruthyStr : Option String → Bool
  | none => false
  | some s => s != ""

/-- Value of a decimal digit character. -/
def digitVal (c : Char) : Nat := c.toNat - 48

/-- Accumulate a list of decimal digits into a natural number. -/
def digitsVal (l : List Char) : Nat :=
  l.foldl (fun n c => 10 * n + digitVal c) 0

/-- Models the JavaScript unary plus (ToNumber) applied to a string, restricted
to the forms this program encounters: the empty string converts to 0, a
(possibly minus-signed) nonempty string of ASCII digits converts to the
corresponding integer, and every other string converts to NaN (`none`).
Exotic numeric forms accepted by full ECMAScript ToNumber (hex, exponents,
fractions, surrounding whitespace) do not occur in lock files and are modelled
as NaN. -/
def jsToNumber (l : List Char) : Option Int :=
  if l.isEmpty then some 0
  else if l.all Char.isDigit then some (digitsVal l : Nat)
  else
    match l with
    | '-' :: rest =>
      if !rest.isEmpty && rest.all Char.isDigit then some (-(digitsVal rest : Nat)) else none
    | _ => none

/-- Models JavaScript `text.split(":")` (single-character separator) on the
character list of the string: `"".split(":")` is `[""]`, separators at the ends
produce empty fields. -/
def splitOnColon : List Char → List (List Char)
  | [] => [[]]
  | c :: rest =>
    if c = ':' then [] :: splitOnColon rest
    else
      match splitOnColon rest with
      | [] => [[c]]
      | f :: fs => (c :: f) :: fs

/-- Standard base64 alphabet, used by `btoa`. -/
def base64Chars : List Char :=
  ['A','B','C','D','E','F','G','H','I','J','K','L','M','N','O','P','Q','R','S','T','U','V','W','X','Y','Z',
   'a','b','c','d','e','f','g','h','i','j','k','l','m','n','o','p','q','r','s','t','u','v','w','x','y','z',
   '0','1','2','3','4','5','6','7','8','9','+','/']

/-- Character of a 6-bit value in the base64 alphabet. -/
def b64char (n : Nat) : Char := base64Chars.getD n 'A'

/-- Base64-encode a list of byte values (with `=` padding). -/
def btoaBytes : List Nat → List Char
  | [] => []
  | [b1] => [b64char (b1 / 4), b64char ((b1 % 4) * 16), '=', '=']
  | [b1, b2] => [b64char (b1 / 4), b64char ((b1 % 4) * 16 + b2 / 16), b64char ((b2 % 16) * 4), '=']
  | b1 :: b2 :: b3 :: rest =>
    b64char (b1 / 4) :: b64char ((b1 % 4) * 16 + b2 / 16) ::
      b64char ((b2 % 16) * 4 + b3 / 64) :: b64char (b3 % 64) :: btoaBytes rest

/-- Models the browser `btoa` function on the latin1 strings this program
passes to it (`btoa` is only defined for code points below 256, which holds for
the `riot:{password}` strings built here). -/
def btoa (s : String) : String :=
  String.mk (btoaBytes (s.data.map Char.toNat))

/-- UTF-8 byte sequence of a single character, used by the
`application/x-www-form-urlencoded` serializer of `URLSearchParams`. -/
def utf8Bytes (c : Char) : List Nat :=
  let n := c.toNat
  if n < 128 then [n]
  else if n < 2048 then [192 + n / 64, 128 + n % 64]
  else if n < 65536 then [224 + n / 4096, 128 + (n / 64) % 64, 128 + n % 64]
  else [240 + n / 262144, 128 + (n / 4096) % 64, 128 + (n / 64) % 64, 128 + n % 64]

/-- Uppercase hexadecimal digit of a value below 16. -/
def hexDigit (n : Nat) : Char :=
  if n < 10 then Char.ofNat (48 + n) else Char.ofNat (55 + n)

/-- Encoding of one byte under `application/x-www-form-urlencoded`: space
becomes `+`, ASCII alphanumerics and `*`, `-`, `.`, `_` stay themselves, and
every other byte is percent-encoded. -/
def formByteChars (b : Nat) : List Char :=
  if b = 32 then ['+']
  else if b = 42 || b = 45 || b = 46 || b = 95
      || (48 ≤ b && b ≤ 57) || (65 ≤ b && b ≤ 90) || (97 ≤ b && b ≤ 122) then
    [Char.ofNat b]
  else ['%', hexDigit (b / 16), hexDigit (b % 16)]

/-- Form-urlencoded serialization of one string (as `URLSearchParams` does). -/
def formEncode (s : String) : String :=
  String.mk (((s.data.map utf8Bytes).flatten.map formByteChars).flatten)

/-- Models `URLSearchParams.toString()` for a parameter list built by
successive `append` calls. -/
def urlSearchParamsToString (params : List (String × String)) : String :=
  String.intercalate "&" (params.map fun p => formEncode p.1 ++ "=" ++ formEncode p.2)

/-- Connection coordinates parsed from the lock file (type `APIInfo` in the
source). Fields are `Option`s because JavaScript destructuring of a short
split yields `undefined` entries, and `+field` on a non-numeric string yields
`NaN`. -/
structure APIInfo where
  username : Option String
  processId : Option Int
  port : Option Int
  password : Option String
  protocol : Option String
deriving DecidableEq

/-- Body of `API.parseLockFile` once the file content is in hand:
`const [username, processId, port, password, protocol] = text.split(":")`
followed by `{ username, processId: +processId, port: +port, password,
protocol }`. -/
def parseLockFileContent (text : String) : APIInfo :=
  let fields := splitOnColon text.data
  { username := (fields.get? 0).map String.mk
    processId := (fields.get? 1).bind jsToNumber
    port := (fields.get? 2).bind jsToNumber
    password := (fields.get? 3).map String.mk
    protocol := (fields.get? 4).map String.mk }

/-- Models `API.parseLockFile`: `none` input means the lock file does not
exist, in which case the function returns `false` (modelled `none`); otherwise
it always succeeds with the parsed `APIInfo`. -/
def parseLockFile : Option String → Option APIInfo
  | none => none
  | some text => some (parseLockFileContent text)

/-- Well-formedness of a lock file in the sense of the specification: exactly
five colon-delimited fields whose second and third fields convert to numbers.
This definition formalizes the specification sentence, not the code; the code
performs no such check. -/
def lockFileWellFormed (text : String) : Bool :=
  match splitOnColon text.data with
  | [_, p1, p2, _, _] => (jsToNumber p1).isSome && (jsToNumber p2).isSome
  | _ => false

/-!
The log-file scan. `API.parseLogFile` runs
`text.match("https://glz-(.+?)-1.(.+?).a.pvp.net")`: a regular expression with
two lazy capture groups in which every unescaped `.` is a wildcard.
`findMatch` below is a backtracking matcher specialized to exactly that
pattern with JavaScript semantics: the match starts at the leftmost possible
position, and each lazy group takes the fewest characters that let the rest of
the pattern match.
-/

/-- Test for the regex wildcard `.` without the `s` flag: any character except
a line terminator. -/
def jsDot (c : Char) : Bool :=
  c != '\n' && c != '\r' && c != Char.ofNat 8232 && c != Char.ofNat 8233

/-- Strip a literal character sequence from the front of the text, or fail. -/
def stripLit : List Char → List Char → Option (List Char)
  | [], l => some l
  | _ :: _, [] => none
  | p :: ps, c :: cs => if p = c then stripLit ps cs else none

/-- Match the fixed-length pattern tail `.a.pvp.net` (wildcard dots at
positions 0, 2 and 6) against the start of the text; the rest of the text is
unconstrained. -/
def tail10 : List Char → Bool
  | d1 :: a :: d2 :: p1 :: v :: p2 :: d3 :: n :: e :: t :: _ =>
    jsDot d1 && a == 'a' && jsDot d2 && p1 == 'p' && v == 'v' && p2 == 'p' &&
      jsDot d3 && n == 'n' && e == 'e' && t == 't'
  | _ => false

/-- Lazy search for the second capture group `(.+?)`: extend the group one
character at a time (wildcard characters only) until `tail10` matches the
remaining text. Returns the captured characters. -/
def group2Search (acc : List Char) : List Char → Option (List Char)
  | [] => none
  | c :: rest =>
    if jsDot c then
      if tail10 rest then some (acc ++ [c]) else group2Search (acc ++ [c]) rest
    else none

/-- Continuation after the literal `-1`: one wildcard character, then the
second group and the pattern tail. -/
def afterG1 : List Char → Option (List Char)
  | [] => none
  | d :: rest => if jsDot d then group2Search [] rest else none

/-- Lazy search for the first capture group `(.+?)`: at each candidate length,
if the text continues with the literal `-1` and the rest of the pattern
matches, succeed with both captures; otherwise extend the group (backtracking
can take the group across a `-1` occurrence whose continuation fails). -/
def group1Search (acc : List Char) : List Char → Option (List Char × List Char)
  | [] => none
  | c :: rest =>
    if jsDot c then
      match rest with
      | '-' :: '1' :: rest2 =>
        match afterG1 rest2 with
        | some g2 => some (acc ++ [c], g2)
        | none => group1Search (acc ++ [c]) rest
      | _ => group1Search (acc ++ [c]) rest
    else none

/-- Literal head of the pattern, `https://glz-`. -/
def glzLit : List Char := ['h','t','t','p','s',':','/','/','g','l','z','-']

/-- Attempt the whole pattern at the start of the text, producing both
captures. -/
def matchAt (l : List Char) : Option (List Char × List Char) :=
  match stripLit glzLit l with
  | none => none
  | some rest => group1Search [] rest

/-- Leftmost match of the pattern in the text, as JavaScript `String.match`
finds it: try every start position from the left. -/
def findMatch : List Char → Option (List Char × List Char)
  | [] => none
  | c :: rest =>
    match matchAt (c :: rest) with
    | some r => some r
    | none => findMatch rest

/-- Body of `API.parseLogFile` once the file content is in hand: the first
two captures of the regex match become region and shard; no match means failure
(`return false`). -/
def parseLogFileContent (text : List Char) : Option (String × String) :=
  (findMatch text).map fun rs => (String.mk rs.1, String.mk rs.2)

/-- Models `API.parseLogFile`: `none` input means the log file does not exist
(failure); otherwise region and shard are captured from the first match of the
host pattern, if any. -/
def parseLogFile : Option (List Char) → Option (String × String)
  | none => none
  | some text => parseLogFileContent text

/-- The literal host string `https://glz-na-1.na.a.pvp.net` that claim C4
quantifies over, as a character list. -/
def naLit : List Char :=
  ['h','t','t','p','s',':','/','/','g','l','z','-','n','a','-','1','.','n','a','.','a','.','p','v','p','.','n','e','t']

/-- The literal host string `https://glz-eu-1.eu.a.pvp.net`, used to exhibit an
earlier match in a log. -/
def euLit : List Char :=
  ['h','t','t','p','s',':','/','/','g','l','z','-','e','u','-','1','.','e','u','.','a','.','p','v','p','.','n','e','t']

/-!
Request machinery. `src/src/backend/fetch.ts` (the shim actually imported by
the desktop-shell variant) sends `{url, headers, method ?? "GET", body}` to the
transport and throws when the transport reports failure. `localRequest` and
`remoteRequest` build an options object `{headers: ..defaults.., ...requestInfo}`:
a spread placed after the default headers, so caller-supplied options that
carry their own `headers` field replace the defaults entirely.
-/

/-- Caller-facing request options (`RequestOptions` in `fetch.ts`): a required
method, optional headers, optional body. `none` models an absent property. -/
structure RequestOptions where
  method : String
  headers : Option (List (String × String))
  body : Option String
deriving DecidableEq

/-- Options object as received by the `fetch` shim (the object literal built
inside `localRequest` / `remoteRequest` need not carry a method). -/
structure JsFetchInit where
  method : Option String
  headers : Option (List (String × String))
  body : Option String
deriving DecidableEq

/-- The outbound HTTP request the shim hands to the transport. -/
structure Request where
  url : String
  method : String
  headers : Option (List (String × String))
  body : Option String
deriving DecidableEq

/-- Answer of the transport (`HttpResponse` in `fetch.ts`). -/
structure HttpResponse where
  success : Bool
  status : Nat
  body : String
  headers : List (String × String)
deriving DecidableEq

/-- A thrown JavaScript `Error`, identified by its message. -/
structure JsError where
  message : String
deriving DecidableEq

/-- Result of `JSON.parse` on a response body. No claim inspects the parsed
structure, so the parse is modelled as an injective wrapper around the raw
body text. -/
inductive JsValue where
  | json : String → JsValue
deriving DecidableEq

/-- The object literal `{headers: defaultHeaders, ...requestInfo}`: spreading
`undefined` is a no-op, while spreading an options object copies its `method`
and, when present, its `headers` and `body` over the defaults. -/
def spreadInit (defaultHeaders : List (String × String)) :
    Option RequestOptions → JsFetchInit
  | none => { method := none, headers := some defaultHeaders, body := none }
  | some o =>
    { method := some o.method
      headers := some (o.headers.getD defaultHeaders)
      body := o.body }

/-- Request construction of the `fetch` shim: method defaults to GET. -/
def fetchShim (url : String) (init : JsFetchInit) : Request :=
  { url := url, method := init.method.getD "GET", headers := init.headers, body := init.body }

/-- Default header list of `localRequest`: HTTP Basic authentication with the
fixed username `riot` and the cached password. -/
def localAuthHeaders (info : APIInfo) : List (String × String) :=
  [("Authorization", "Basic " ++ btoa ("riot:" ++ jsStr info.password))]

/-- Target URL of `localRequest`. -/
def localRequestUrl (info : APIInfo) (path : String) : String :=
  jsStr info.protocol ++ "://127.0.0.1:" ++ jsNumStr info.port ++ "/" ++ path

/-- Models `API.localRequest` of the desktop-shell variant: the issued request,
the messages logged, and the outcome (thrown error or parsed body). `info` is
the cached `API.apiInfo` and `resp` the answer of the transport. -/
def localRequest (info : APIInfo) (path : String) (requestInfo : Option RequestOptions)
    (resp : HttpResponse) : Request × List String × Except JsError JsValue :=
  (fetchShim (localRequestUrl info path) (spreadInit (localAuthHeaders info) requestInfo),
    if resp.success = false then
      ([], .error ⟨"Unable to complete HTTP request."⟩)
    else if resp.status ≠ 200 then
      (["Client did not return a good response: " ++ toString resp.status ++ " " ++ resp.body],
        .error ⟨"Failed to fetch data."⟩)
    else
      ([], .ok (.json resp.body)))

/-- Routing selector of `remoteRequest` (the `"pd" | "glz"` union). -/
inductive RoutingSel where
  | pd
  | glz
deriving DecidableEq

/-- Extra arguments of `remoteRequest` (`args?: { query?: "pd" | "glz" }`). -/
structure RemoteArgs where
  query : Option RoutingSel
deriving DecidableEq

/-- The hardcoded client-platform fingerprint constant. -/
def clientPlatform : String :=
  "ew0KCSJwbGF0Zm9ybVR5cGUiOiAiUEMiLA0KCSJwbGF0Zm9ybU9TIjogIldpbmRvd3MiLA0KCSJwbGF0Zm9ybU9TVmVyc2lvbiI6ICIxMC4wLjE5MDQyLjEuMjU2LjY0Yml0IiwNCgkicGxhdGZvcm1DaGlwc2V0IjogIlVua25vd24iDQp9"

/-- Base host chosen by `remoteRequest`:
`args?.query == "pd" ? https://pd.{shard}.a.pvp.net : https://glz-{region}-1.{shard}.a.pvp.net`. -/
def remoteBaseUrl (region shard : Option String) (args : Option RemoteArgs) : String :=
  if args.bind RemoteArgs.query = some RoutingSel.pd then
    "https://pd." ++ jsStr shard ++ ".a.pvp.net"
  else
    "https://glz-" ++ jsStr region ++ "-1." ++ jsStr shard ++ ".a.pvp.net"

/-- Chat-session snapshot (`ChatSessionResponse`); only the `puuid` field is
ever read by the core, so the remaining response fields are omitted. -/
structure ChatSessionResponse where
  puuid : String
deriving DecidableEq

/-- Entitlements snapshot (`EntitlementsTokenResponse`); the core reads
`accessToken` and `token`, the remaining response fields are omitted. -/
structure EntitlementsTokenResponse where
  accessToken : String
  token : String
deriving DecidableEq

/-- One entry of the keyed `SessionsResponse` object; the core reads
`productId` and `version`, the remaining fields are omitted. -/
structure SessionEntry where
  productId : String
  version : String
deriving DecidableEq

/-- The keyed sessions object, as its key/value pairs in insertion order
(`Object.values` enumerates string keys in that order). -/
abbrev SessionsResponse := List (String × SessionEntry)

/-- An open WebSocket handle, identified by the URL and the Basic
authentication header it was opened with. -/
structure Socket where
  url : String
  authHeader : String
deriving DecidableEq

/-- Cached singleton state of the `API` class: every static field starts out
`undefined` and is only written by the setup methods. -/
structure APIState where
  apiInfo : Option APIInfo
  region : Option String
  shard : Option String
  chatSession : Option ChatSessionResponse
  entitlements : Option EntitlementsTokenResponse
  riotSessions : Option SessionsResponse
  authToken : Option String
  playerUuid : Option String
  clientVersion : Option String
  entitlementToken : Option String
  socket : Option Socket
deriving DecidableEq

/-- Default headers of `remoteRequest`: platform fingerprint, client version,
entitlement token and bearer auth token from the cached state. -/
def remoteHeaders (st : APIState) : List (String × String) :=
  [("X-Riot-ClientPlatform", clientPlatform),
   ("X-Riot-ClientVersion", jsStr st.clientVersion),
   ("X-Riot-Entitlements-JWT", jsStr st.entitlementToken),
   ("Authorization", "Bearer " ++ jsStr st.authToken)]

/-- Models `API.remoteRequest` of the desktop-shell variant: the issued
request, the messages logged, and the outcome. -/
def remoteRequest (st : APIState) (path : String) (requestInfo : Option RequestOptions)
    (args : Option RemoteArgs) (resp : HttpResponse) :
    Request × List String × Except JsError JsValue :=
  (fetchShim (remoteBaseUrl st.region st.shard args ++ "/" ++ path)
      (spreadInit (remoteHeaders st) requestInfo),
    if resp.success = false then
      ([], .error ⟨"Unable to complete HTTP request."⟩)
    else if resp.status ≠ 200 then
      (["Server did not return a good response: " ++ toString resp.status ++ " " ++ resp.body],
        .error ⟨"Failed to fetch data."⟩)
    else
      ([], .ok (.json resp.body)))

/-- Optional arguments of `getMatchHistory`. -/
structure MatchHistoryArgs where
  startIndex : Option Int
  endIndex : Option Int
  queue : Option String
deriving DecidableEq

/-- Query-parameter list built by `getMatchHistory` through three
`URLSearchParams.append` calls, with the defaults `"0"`, `"20"` and
`"competitive"` for absent arguments. -/
def matchHistoryParams (args : Option MatchHistoryArgs) : List (String × String) :=
  [("startIndex", match args.bind MatchHistoryArgs.startIndex with
      | none => "0"
      | some n => toString n),
   ("endIndex", match args.bind MatchHistoryArgs.endIndex with
      | none => "20"
      | some n => toString n),
   ("queue", match args.bind MatchHistoryArgs.queue with
      | none => "competitive"
      | some q => q)]

/-- Path-with-query built by `getMatchHistory` for a given player UUID. -/
def matchHistoryPath (uuid : String) (args : Option MatchHistoryArgs) : String :=
  "match-history/v1/history/" ++ uuid ++ "?" ++ urlSearchParamsToString (matchHistoryParams args)

/-- Models `API.getMatchHistory` of the desktop-shell variant: the player UUID
defaults to the cached `API.playerUuid`, and the request goes through
`remoteRequest` with no request options and the `pd` routing selector. -/
def getMatchHistory (st : APIState) (playerUuid : Option String)
    (args : Option MatchHistoryArgs) (resp : HttpResponse) :
    Request × List String × Except JsError JsValue :=
  let uuid := match playerUuid with
    | none => jsStr st.playerUuid
    | some u => u
  remoteRequest st (matchHistoryPath uuid args) none (some ⟨some RoutingSel.pd⟩) resp

/-!
The standalone-process variant (the second implementation in
`src/src/backend/fetch.ts`, lines 213-239 and 300-317 of that file). Its
`remoteRequest` / `getMatchHistory` build the target URL with the same
expressions as the desktop-shell variant; only the transport and response
handling differ, which is outside what claim C10 compares. The URL
constructors are embedded separately below so the two variants can be
compared.
-/

/-- Base host chosen by `remoteRequest` of the standalone variant (same ternary
expression as the desktop-shell variant). -/
def remoteBaseUrlStandalone (region shard : Option String) (args : Option RemoteArgs) : String :=
  if args.bind RemoteArgs.query = some RoutingSel.pd then
    "https://pd." ++ jsStr shard ++ ".a.pvp.net"
  else
    "https://glz-" ++ jsStr region ++ "-1." ++ jsStr shard ++ ".a.pvp.net"

/-- Full URL issued by `remoteRequest` of the standalone variant. -/
def remoteRequestUrlStandalone (st : APIState) (path : String) (args : Option RemoteArgs) : String :=
  remoteBaseUrlStandalone st.region st.shard args ++ "/" ++ path

/-- Query-parameter list of `getMatchHistory` of the standalone variant (same
three `append` calls and defaults). -/
def matchHistoryParamsStandalone (args : Option MatchHistoryArgs) : List (String × String) :=
  [("startIndex", match args.bind MatchHistoryArgs.startIndex with
      | none => "0"
      | some n => toString n),
   ("endIndex", match args.bind MatchHistoryArgs.endIndex with
      | none => "20"
      | some n => toString n),
   ("queue", match args.bind MatchHistoryArgs.queue with
      | none => "competitive"
      | some q => q)]

/-- URL issued by `getMatchHistory` of the standalone variant; unlike the
desktop-shell variant, its `playerUuid` parameter has no default. -/
def getMatchHistoryUrlStandalone (st : APIState) (uuid : String)
    (args : Option MatchHistoryArgs) : String :=
  remoteRequestUrlStandalone st
    ("match-history/v1/history/" ++ uuid ++ "?" ++
      urlSearchParamsToString (matchHistoryParamsStandalone args))
    (some ⟨some RoutingSel.pd⟩)

/-!
The bootstrap sequence `API.setupClient` of the desktop-shell variant. The
file reads and the three local API calls it performs are parameterized by a
`SetupEnv` describing the external world: the lock/log file contents (absent
files are `none`) and the outcome of each local call (`none` means the call threw,
i.e. the transport failed or the client answered non-200; the thrown exception
propagates out of `setupClient`, which has no handler). The WebSocket
handshake outcome is a boolean.
-/

/-- External world observed during one `setupClient` run. -/
structure SetupEnv where
  lockFile : Option String
  logFile : Option (List Char)
  chatResp : Option ChatSessionResponse
  sessionsResp : Option SessionsResponse
  entitlementsResp : Option EntitlementsTokenResponse
  socketOk : Bool
deriving DecidableEq

/-- How a `setupClient` run ends: `ok` / `failed` are the boolean results of
the source, `threw` models an exception escaping from one of the awaited local
calls. -/
inductive SetupOutcome where
  | ok
  | failed
  | threw
deriving DecidableEq

/-- The WebSocket handle `connectToSocket` opens:
`wss://127.0.0.1:{port}` with Basic authentication for `riot:{password}`. -/
def connectSocketHandle (info : APIInfo) : Socket :=
  { url := "wss://127.0.0.1:" ++ jsNumStr info.port
    authHeader := "Basic " ++ btoa ("riot:" ++ jsStr info.password) }

/-- Models `API.connectToSocket`: fails when `apiInfo` is unset; otherwise
stores the fresh handle only when the handshake succeeds (a throwing
`WebSocket.connect` is caught and leaves the field untouched). `socketOk` is
the handshake outcome; the function returns the updated state, the boolean
result and the logged messages. -/
def connectToSocket (socketOk : Bool) (st : APIState) : APIState × Bool × List String :=
  match st.apiInfo with
  | none => (st, false, ["API information is not available."])
  | some info =>
    if socketOk then
      ({ st with socket := some (connectSocketHandle info) }, true,
        ["Connecting to local websocket..."])
    else
      (st, false, ["Connecting to local websocket..."])

/-- Step 1 of `setupClient`:
`if (!API.apiInfo && !await API.parseLockFile()) return false`. The lock file
is only consulted when `apiInfo` is unset. -/
def resolveApiInfoStep (env : SetupEnv) (st : APIState) : APIState × Bool :=
  if st.apiInfo.isSome then (st, true)
  else
    match parseLockFile env.lockFile with
    | none => (st, false)
    | some info => ({ st with apiInfo := some info }, true)

/-- Step 2 of `setupClient`:
`if (!API.region && !await API.parseLogFile()) return false`. The log file is
only consulted when `region` is JavaScript-falsy. -/
def resolveRoutingStep (env : SetupEnv) (st : APIState) : APIState × Bool :=
  if jsTruthyStr st.region then (st, true)
  else
    match parseLogFile env.logFile with
    | none => (st, false)
    | some rs => ({ st with region := some rs.1, shard := some rs.2 }, true)

/-- Steps 3-6 of `setupClient`: fetch the three local snapshots (each
assignment lands before the next call, so an exception keeps the earlier
writes), derive `authToken` / `playerUuid` / `entitlementToken`, search the
session list for the `valorant` product, store its version, and connect the
socket. -/
def fetchAndDerive (chatResp : Option ChatSessionResponse)
    (sessionsResp : Option SessionsResponse) (entResp : Option EntitlementsTokenResponse)
    (socketOk : Bool) (st : APIState) : APIState × SetupOutcome × List String :=
  match chatResp with
  | none => (st, .threw, [])
  | some chat =>
    match sessionsResp with
    | none => ({ st with chatSession := some chat }, .threw, [])
    | some sessions =>
      match entResp with
      | none => ({ st with chatSession := some chat, riotSessions := some sessions }, .threw, [])
      | some ent =>
        let st5 : APIState :=
          { st with chatSession := some chat, riotSessions := some sessions,
                    entitlements := some ent, authToken := some ent.accessToken,
                    playerUuid := some chat.puuid, entitlementToken := some ent.token }
        match (sessions.map Prod.snd).find? (fun s => s.productId == "valorant") with
        | none => (st5, .failed, ["VALORANT session not found."])
        | some v =>
          match connectToSocket socketOk { st5 with clientVersion := some v.version } with
          | (st7, true, log) => (st7, .ok, log ++ ["API setup is complete!"])
          | (st7, false, log) => (st7, .failed, log ++ ["Failed to connect to the local API socket."])

/-- Models `API.setupClient` of the desktop-shell variant: resolve `apiInfo`
and routing if not yet cached (aborting on locator failure), then fetch,
derive and connect. -/
def setupClient (env : SetupEnv) (st : APIState) : APIState × SetupOutcome × List String :=
  match resolveApiInfoStep env st with
  | (st1, false) => (st1, .failed, [])
  | (st1, true) =>
    match resolveRoutingStep env st1 with
    | (st2, false) => (st2, .failed, [])
    | (st2, true) =>
      fetchAndDerive env.chatResp env.sessionsResp env.entitlementsResp env.socketOk st2

/-- Sample connection coordinates used in concrete witnesses. -/
def sampleApiInfo : APIInfo := ⟨some "riot", some 123, some 456, some "pw", some "https"⟩

/-- Initial singleton state: every static field is `undefined`. -/
def blankState : APIState :=
  ⟨none, none, none, none, none, none, none, none, none, none, none⟩

/-- A state whose locator results are already cached, as after a successful
earlier bootstrap of the locator phase. -/
def resolvedState : APIState :=
  { blankState with apiInfo := some sampleApiInfo, region := some "na", shard := some "na" }

/-- An environment whose session list contains only a `riot_client` entry and
no `valorant` entry; the three local fetches and the socket handshake
succeed. -/
def noValorantEnv : SetupEnv :=
  ⟨none, none, some ⟨"uuid-1"⟩, some [("riot_client", ⟨"riot_client", "91.0.2"⟩)],
    some ⟨"acc-token", "ent-token"⟩, true⟩

/-- A resolved state carrying a client version and socket handle left over
from an earlier bootstrap. -/
def staleState : APIState :=
  { resolvedState with clientVersion := some "old-version",
                       socket := some ⟨"wss://stale", "stale-auth"⟩ }

/-- A match attempt fails outright when the text does not start with the
literal `https://glz-`. -/
theorem matchAt_eq_none_of_stripLit {l : List Char}
    (h : stripLit glzLit l = none) : matchAt l = none := by
  unfold matchAt
  rw [h]

/-- Unfolding equation of `findMatch` on a nonempty text. -/
theorem findMatch_cons (c : Char) (rest : List Char) :
    findMatch (c :: rest) =
      match matchAt (c :: rest) with
      | some r => some r
      | none => findMatch rest := rfl

/-- Scanning can skip any leading segment at whose positions the pattern head
`https://glz-` does not occur. -/
theorem findMatch_append_skip (pre l : List Char)
    (h : ∀ i, i < pre.length → stripLit glzLit (List.drop i (pre ++ l)) = none) :
    findMatch (pre ++ l) = findMatch l := by
  induction pre with
  | nil => rfl
  | cons c rest ih =>
    have h0 : stripLit glzLit ((c :: rest) ++ l) = none := by
      simpa using h 0 (by simp)
    have hAt : matchAt (c :: (rest ++ l)) = none := matchAt_eq_none_of_stripLit h0
    show findMatch (c :: (rest ++ l)) = findMatch l
    rw [findMatch_cons, hAt]
    exact ih (fun i hi => by simpa using h (i + 1) (by simpa using hi))

/-- A text whose suffix produces a match produces a match. -/
theorem findMatch_append_isSome (pre l : List Char)
    (h : (findMatch l).isSome) : (findMatch (pre ++ l)).isSome := by
  induction pre with
  | nil => simpa using h
  | cons c rest ih =>
    show (findMatch (c :: (rest ++ l))).isSome
    rw [findMatch_cons]
    cases hm : matchAt (c :: (rest ++ l)) with
    | some r => simp
    | none => simpa using ih

/-- At an occurrence of `https://glz-na-1.na.a.pvp.net` the lazy matcher
captures exactly `na` and `na`, whatever text follows. -/
theorem findMatch_naLit (post : List Char) :
    findMatch (naLit ++ post) = some (['n','a'], ['n','a']) := rfl

/-- C1, amended. For every path, request options and response with a status
other than 200, both `localRequest` and `remoteRequest` fail (throw) without
returning any parsed data, and the logged message carries the original status
and body; the thrown error itself, however, is the constant
`Failed to fetch data.` and carries neither status nor body (the original
claim attributes the status/body payload to the error). -/
theorem non200_throws_constant_error (info : APIInfo) (st : APIState) (path : String)
    (requestInfo : Option RequestOptions) (args : Option RemoteArgs) (resp : HttpResponse)
    (hok : resp.success = true) (hst : resp.status ≠ 200) :
    (localRequest info path requestInfo resp).2 =
      (["Client did not return a good response: " ++ toString resp.status ++ " " ++ resp.body],
        .error ⟨"Failed to fetch data."⟩) ∧
    (remoteRequest st path requestInfo args resp).2 =
      (["Server did not return a good response: " ++ toString resp.status ++ " " ++ resp.body],
        .error ⟨"Failed to fetch data."⟩) := by
  constructor <;> simp [localRequest, remoteRequest, hok, hst]

/-- C1 witness: the amended claim evaluated on a concrete 404 response. -/
theorem non200_throws_constant_error_witness :
    (true = true ∧ (404 : Nat) ≠ 200) ∧
    (localRequest sampleApiInfo "entitlements/v1/token" none ⟨true, 404, "oops", []⟩).2 =
      (["Client did not return a good response: 404 oops"], .error ⟨"Failed to fetch data."⟩) :=
  ⟨⟨rfl, by decide⟩,
    (non200_throws_constant_error sampleApiInfo blankState "entitlements/v1/token" none none
      ⟨true, 404, "oops", []⟩ rfl (by decide)).1⟩

/-- C1 counterexample: two non-200 responses with different statuses and
bodies produce the very same thrown error value, so the failure cannot carry
the original response status and body as the claim states. -/
theorem non200_error_payload_constant :
    (localRequest sampleApiInfo "p" none ⟨true, 404, "alpha", []⟩).2.2 =
      (localRequest sampleApiInfo "p" none ⟨true, 500, "beta", []⟩).2.2 ∧
    (localRequest sampleApiInfo "p" none ⟨true, 404, "alpha", []⟩).2.2 =
      .error ⟨"Failed to fetch data."⟩ ∧
    (404 : Nat) ≠ 500 ∧ ("alpha" : String) ≠ "beta" := by
  refine ⟨rfl, rfl, by decide, by decide⟩

/-- C2, amended. When the bootstrap reaches the session search (locator state
resolved, all three local fetches succeeded) and no session entry has product
identifier `valorant`, `setupClient` fails with the
`VALORANT session not found.` message and leaves `clientVersion` and the
socket untouched; however, contrary to the original claim, `authToken`,
`playerUuid` and `entitlementToken` (together with the three snapshots) are
assigned before the search and remain set. -/
theorem setupClient_noTargetSession (env : SetupEnv) (st : APIState) (info : APIInfo)
    (chat : ChatSessionResponse) (sessions : SessionsResponse) (ent : EntitlementsTokenResponse)
    (hinfo : st.apiInfo = some info) (hregion : jsTruthyStr st.region = true)
    (hchat : env.chatResp = some chat) (hsess : env.sessionsResp = some sessions)
    (hent : env.entitlementsResp = some ent)
    (hfind : (sessions.map Prod.snd).find? (fun s => s.productId == "valorant") = none) :
    setupClient env st =
      ({ st with chatSession := some chat, riotSessions := some sessions,
                 entitlements := some ent, authToken := some ent.accessToken,
                 playerUuid := some chat.puuid, entitlementToken := some ent.token },
        .failed, ["VALORANT session not found."]) := by
  simp [setupClient, resolveApiInfoStep, resolveRoutingStep, fetchAndDerive,
    hinfo, hregion, hchat, hsess, hent, hfind]

/-- C2 witness: the amended claim evaluated on a session list that only holds
a `riot_client` entry. -/
theorem setupClient_noTargetSession_witness :
    resolvedState.apiInfo = some sampleApiInfo ∧
    jsTruthyStr resolvedState.region = true ∧
    setupClient noValorantEnv resolvedState =
      ({ resolvedState with
          chatSession := some ⟨"uuid-1"⟩,
          riotSessions := some [("riot_client", ⟨"riot_client", "91.0.2"⟩)],
          entitlements := some ⟨"acc-token", "ent-token"⟩,
          authToken := some "acc-token",
          playerUuid := some "uuid-1",
          entitlementToken := some "ent-token" },
        .failed, ["VALORANT session not found."]) :=
  ⟨rfl, rfl,
    setupClient_noTargetSession noValorantEnv resolvedState sampleApiInfo
      ⟨"uuid-1"⟩ [("riot_client", ⟨"riot_client", "91.0.2"⟩)] ⟨"acc-token", "ent-token"⟩
      rfl rfl rfl rfl rfl (by decide)⟩

/-- C2 counterexample: starting from a state whose derived identity is unset,
a bootstrap over a session list without a `valorant` entry does fail, but
leaves `authToken`, `playerUuid` and `entitlementToken` set, refuting the
claim that the whole DerivedIdentity is left unset. -/
theorem setupClient_noTargetSession_sets_identity :
    (setupClient noValorantEnv resolvedState).2.1 = .failed ∧
    (setupClient noValorantEnv resolvedState).1.authToken = some "acc-token" ∧
    (setupClient noValorantEnv resolvedState).1.playerUuid = some "uuid-1" ∧
    (setupClient noValorantEnv resolvedState).1.entitlementToken = some "ent-token" ∧
    resolvedState.authToken = none ∧
    resolvedState.playerUuid = none ∧
    resolvedState.entitlementToken = none := by
  refine ⟨rfl, rfl, rfl, rfl, rfl, rfl, rfl⟩

/-- C3. For every lock-file content splitting into exactly five
colon-delimited fields whose second and third fields parse as integers,
`parseLockFile` succeeds with an `APIInfo` whose string fields are the split
substrings and whose `processId` and `port` are the parsed integers. -/
theorem parseLockFile_wellFormed (text : String) (u p1 p2 pw pr : List Char) (n m : Int)
    (hsplit : splitOnColon text.data = [u, p1, p2, pw, pr])
    (hn : jsToNumber p1 = some n) (hm : jsToNumber p2 = some m) :
    parseLockFile (some text) =
      some { username := some (String.mk u), processId := some n, port := some m,
             password := some (String.mk pw), protocol := some (String.mk pr) } := by
  simp [parseLockFile, parseLockFileContent, hsplit, hn, hm]

/-- C3 witness: the claim evaluated on a concrete well-formed lock file. -/
theorem parseLockFile_wellFormed_witness :
    splitOnColon "riot:123:456:pw:https".data =
      ["riot".data, "123".data, "456".data, "pw".data, "https".data] ∧
    parseLockFile (some "riot:123:456:pw:https") =
      some ⟨some "riot", some 123, some 456, some "pw", some "https"⟩ :=
  ⟨by decide,
    parseLockFile_wellFormed "riot:123:456:pw:https" "riot".data "123".data "456".data
      "pw".data "https".data 123 456 (by decide) (by decide) (by decide)⟩

/-- C4, amended. For every log content in which the host
`https://glz-na-1.na.a.pvp.net` occurs, `parseLogFile` succeeds; and when no
occurrence of the pattern head `https://glz-` precedes it (in particular when
the `na` host is the first matching substring), the captured region and shard
are `na` and `na`. The original unconditional claim fails when an earlier
matching host occurs in the log, because the captures come from the leftmost
match. -/
theorem parseLogFile_na_host (pre post : List Char) :
    parseLogFile (some (pre ++ (naLit ++ post))) ≠ none ∧
    ((∀ i, i < pre.length → stripLit glzLit (List.drop i (pre ++ (naLit ++ post))) = none) →
      parseLogFile (some (pre ++ (naLit ++ post))) = some ("na", "na")) := by
  constructor
  · show parseLogFileContent (pre ++ (naLit ++ post)) ≠ none
    have hs := findMatch_append_isSome pre (naLit ++ post) (by rw [findMatch_naLit]; rfl)
    rcases Option.isSome_iff_exists.mp hs with ⟨r, hr⟩
    simp [parseLogFileContent, hr]
  · intro h
    show parseLogFileContent (pre ++ (naLit ++ post)) = some ("na", "na")
    unfold parseLogFileContent
    rw [findMatch_append_skip pre (naLit ++ post) h, findMatch_naLit]
    rfl

/-- C4 witness: the amended claim evaluated on a log line whose only host
occurrence is the `na` host. -/
theorem parseLogFile_na_host_witness :
    (∀ i, i < (['l','o','g',' '] : List Char).length →
      stripLit glzLit (List.drop i (['l','o','g',' '] ++ (naLit ++ []))) = none) ∧
    parseLogFile (some (['l','o','g',' '] ++ (naLit ++ []))) = some ("na", "na") :=
  ⟨by decide, (parseLogFile_na_host ['l','o','g',' '] []).2 (by decide)⟩

/-- C4 counterexample: a log containing the `na` host preceded by an `eu` host
still contains the `na` substring, yet the first match captures `eu`, so the
claimed result `na`/`na` is wrong for this content. -/
theorem parseLogFile_earlier_host_shadows_na :
    parseLogFileContent ((euLit ++ [' ']) ++ (naLit ++ [])) = some ("eu", "eu") ∧
    ("eu" : String) ≠ "na" := by
  constructor
  · decide
  · decide

/-- C5. `getMatchHistory` called with no arguments issues its single request
to the per-shard `pd` host with query string exactly
`startIndex=0&endIndex=20&queue=competitive`. -/
theorem getMatchHistory_default_query (st : APIState) (resp : HttpResponse) :
    (getMatchHistory st none none resp).1.url =
      "https://pd." ++ jsStr st.shard ++ ".a.pvp.net" ++ "/" ++
        ("match-history/v1/history/" ++ jsStr st.playerUuid ++
          ("?" ++ "startIndex=0&endIndex=20&queue=competitive")) ∧
    remoteBaseUrl st.region st.shard (some ⟨some RoutingSel.pd⟩) =
      "https://pd." ++ jsStr st.shard ++ ".a.pvp.net" := by
  constructor
  · have hq : urlSearchParamsToString (matchHistoryParams none) =
        "startIndex=0&endIndex=20&queue=competitive" := by decide
    simp [getMatchHistory, remoteRequest, fetchShim, matchHistoryPath, remoteBaseUrl, hq,
      String.append_assoc]
  · simp [remoteBaseUrl]

/-- C6. The base host used by `remoteRequest` is a pure function of the
routing selector (and the cached region/shard): selector `pd` yields the
per-shard host, any other value including an absent selector yields the
per-region-and-shard `glz` host, and the path is only ever appended after the
host, never influencing its selection. -/
theorem remoteRequest_host_selection (st : APIState) (path : String)
    (requestInfo : Option RequestOptions) (args : Option RemoteArgs) (resp : HttpResponse) :
    (remoteRequest st path requestInfo args resp).1.url =
      remoteBaseUrl st.region st.shard args ++ "/" ++ path ∧
    remoteBaseUrl st.region st.shard args =
      (if args.bind RemoteArgs.query = some RoutingSel.pd then
        "https://pd." ++ jsStr st.shard ++ ".a.pvp.net"
      else
        "https://glz-" ++ jsStr st.region ++ "-1." ++ jsStr st.shard ++ ".a.pvp.net") ∧
    remoteBaseUrl st.region st.shard none =
      "https://glz-" ++ jsStr st.region ++ "-1." ++ jsStr st.shard ++ ".a.pvp.net" := by
  refine ⟨rfl, rfl, rfl⟩

/-- C7, amended. `localRequest` always targets
`{protocol}://127.0.0.1:{port}/{path}` built from the cached `APIInfo`; the
issued request carries the Basic Authorization header for `riot` and the
cached password whenever the caller options do not supply their own `headers`
field, but options that do carry a `headers` field replace the default headers
entirely (the spread is placed after them), refuting the original
always-authenticated claim. -/
theorem localRequest_url_and_default_auth (info : APIInfo) (path : String)
    (requestInfo : Option RequestOptions) (resp : HttpResponse) :
    (localRequest info path requestInfo resp).1.url =
      jsStr info.protocol ++ "://127.0.0.1:" ++ jsNumStr info.port ++ "/" ++ path ∧
    (requestInfo.bind RequestOptions.headers = none →
      (localRequest info path requestInfo resp).1.headers =
        some [("Authorization", "Basic " ++ btoa ("riot:" ++ jsStr info.password))]) := by
  constructor
  · simp [localRequest, fetchShim, localRequestUrl, String.append_assoc]
  · intro h
    cases requestInfo with
    | none => simp [localRequest, fetchShim, spreadInit, localAuthHeaders]
    | some o =>
      have ho : o.headers = none := by simpa using h
      simp [localRequest, fetchShim, spreadInit, localAuthHeaders, ho]

/-- C7 witness: the amended claim evaluated on a concrete call without caller
headers. -/
theorem localRequest_url_and_default_auth_witness :
    (none : Option RequestOptions).bind RequestOptions.headers = none ∧
    (localRequest sampleApiInfo "chat/v1/session" none ⟨true, 200, "{}", []⟩).1.url =
      "https://127.0.0.1:456/chat/v1/session" ∧
    (localRequest sampleApiInfo "chat/v1/session" none ⟨true, 200, "{}", []⟩).1.headers =
      some [("Authorization", "Basic cmlvdDpwdw==")] :=
  ⟨rfl,
    (localRequest_url_and_default_auth sampleApiInfo "chat/v1/session" none
      ⟨true, 200, "{}", []⟩).1,
    (localRequest_url_and_default_auth sampleApiInfo "chat/v1/session" none
      ⟨true, 200, "{}", []⟩).2 rfl⟩

/-- C7 counterexample: request options that carry a `headers` field (here an
empty one) wipe out the default headers, so the issued request has no
Authorization header at all, refuting the claim that Basic authentication is
always attached. -/
theorem localRequest_headers_overridden :
    (localRequest sampleApiInfo "x" (some ⟨"POST", some [], none⟩)
      ⟨true, 200, "{}", []⟩).1.headers = some [] ∧
    ¬ ∃ v, ("Authorization", v) ∈
      ((localRequest sampleApiInfo "x" (some ⟨"POST", some [], none⟩)
        ⟨true, 200, "{}", []⟩).1.headers.getD []) := by
  refine ⟨by decide, ?_⟩
  rintro ⟨v, hv⟩
  simp [localRequest, fetchShim, spreadInit] at hv

/-- C8, amended. `parseLockFile` performs no validation: for malformed content
(anything other than five colon-delimited fields with integer second and third
fields) it still succeeds, building an `APIInfo` from whatever split fields
exist (missing fields stay `undefined`, unparseable numbers become NaN); the
original claim of a caller-visible parse failure does not hold, as the success
is unconditional. -/
theorem parseLockFile_malformed_succeeds (text : String)
    (_h : lockFileWellFormed text = false) :
    (parseLockFile (some text)).isSome = true ∧
    parseLockFile (some text) = some (parseLockFileContent text) := by
  exact ⟨rfl, rfl⟩

/-- C8 witness: the amended claim evaluated on concrete malformed content. -/
theorem parseLockFile_malformed_succeeds_witness :
    lockFileWellFormed "garbage" = false ∧
    (parseLockFile (some "garbage")).isSome = true :=
  ⟨by decide, (parseLockFile_malformed_succeeds "garbage" (by decide)).1⟩

/-- C8 counterexample: content with a single field is malformed, yet
`parseLockFile` succeeds and builds an `APIInfo` from it (username is the
whole text, the remaining fields `undefined`/NaN), refuting the claimed
caller-visible parse failure. -/
theorem parseLockFile_malformed_counterexample :
    lockFileWellFormed "garbage" = false ∧
    parseLockFile (some "garbage") = some ⟨some "garbage", none, none, none, none⟩ := by
  exact ⟨by decide, by decide⟩

/-- C9, amended. With `apiInfo` and routing already resolved, `setupClient`
skips both locators: its result is independent of the lock and log files and
the cached `apiInfo`/`region`/`shard` are unchanged. The snapshots and
`authToken`/`playerUuid`/`entitlementToken` are refreshed whenever the three
local fetches succeed; `clientVersion` is refreshed only when the target
session is found, and the socket only when additionally the handshake
succeeds — contrary to the original claim that the whole
SessionState/DerivedIdentity/SocketHandle group is refreshed on every call. -/
theorem setupClient_resolved_skips_locators (env : SetupEnv) (st : APIState) (info : APIInfo)
    (hinfo : st.apiInfo = some info) (hregion : jsTruthyStr st.region = true) :
    (∀ l g, setupClient { env with lockFile := l, logFile := g } st = setupClient env st) ∧
    (setupClient env st).1.apiInfo = st.apiInfo ∧
    (setupClient env st).1.region = st.region ∧
    (setupClient env st).1.shard = st.shard ∧
    (∀ chat sessions ent, env.chatResp = some chat → env.sessionsResp = some sessions →
      env.entitlementsResp = some ent →
      (setupClient env st).1.chatSession = some chat ∧
      (setupClient env st).1.riotSessions = some sessions ∧
      (setupClient env st).1.entitlements = some ent ∧
      (setupClient env st).1.authToken = some ent.accessToken ∧
      (setupClient env st).1.playerUuid = some chat.puuid ∧
      (setupClient env st).1.entitlementToken = some ent.token ∧
      (∀ v, (sessions.map Prod.snd).find? (fun s => s.productId == "valorant") = some v →
        (setupClient env st).1.clientVersion = some v.version ∧
        (env.socketOk = true →
          (setupClient env st).1.socket = some (connectSocketHandle info)))) := by
  have hred : ∀ e : SetupEnv,
      setupClient e st =
        fetchAndDerive e.chatResp e.sessionsResp e.entitlementsResp e.socketOk st := by
    intro e
    simp [setupClient, resolveApiInfoStep, resolveRoutingStep, hinfo, hregion]
  refine ⟨?_, ?_, ?_, ?_, ?_⟩
  · intro l g
    rw [hred, hred]
  · rw [hred]
    cases hc : env.chatResp with
    | none => simp [fetchAndDerive, hc]
    | some chat =>
      cases hs : env.sessionsResp with
      | none => simp [fetchAndDerive, hc, hs]
      | some sessions =>
        cases he : env.entitlementsResp with
        | none => simp [fetchAndDerive, hc, hs, he]
        | some ent =>
          cases hf : (sessions.map Prod.snd).find? (fun s => s.productId == "valorant") with
          | none => simp [fetchAndDerive, hc, hs, he, hf]
          | some v =>
            cases hso : env.socketOk <;>
              simp [fetchAndDerive, hc, hs, he, hf, hso, connectToSocket, hinfo]
  · rw [hred]
    cases hc : env.chatResp with
    | none => simp [fetchAndDerive, hc]
    | some chat =>
      cases hs : env.sessionsResp with
      | none => simp [fetchAndDerive, hc, hs]
      | some sessions =>
        cases he : env.entitlementsResp with
        | none => simp [fetchAndDerive, hc, hs, he]
        | some ent =>
          cases hf : (sessions.map Prod.snd).find? (fun s => s.productId == "valorant") with
          | none => simp [fetchAndDerive, hc, hs, he, hf]
          | some v =>
            cases hso : env.socketOk <;>
              simp [fetchAndDerive, hc, hs, he, hf, hso, connectToSocket, hinfo]
  · rw [hred]
    cases hc : env.chatResp with
    | none => simp [fetchAndDerive, hc]
    | some chat =>
      cases hs : env.sessionsResp with
      | none => simp [fetchAndDerive, hc, hs]
      | some sessions =>
        cases he : env.entitlementsResp with
        | none => simp [fetchAndDerive, hc, hs, he]
        | some ent =>
          cases hf : (sessions.map Prod.snd).find? (fun s => s.productId == "valorant") with
          | none => simp [fetchAndDerive, hc, hs, he, hf]
          | some v =>
            cases hso : env.socketOk <;>
              simp [fetchAndDerive, hc, hs, he, hf, hso, connectToSocket, hinfo]
  · intro chat sessions ent hc hs he
    rw [hred, hc, hs, he]
    cases hf : (sessions.map Prod.snd).find? (fun s => s.productId == "valorant") with
    | none =>
      refine ⟨by simp [fetchAndDerive, hf], by simp [fetchAndDerive, hf],
        by simp [fetchAndDerive, hf], by simp [fetchAndDerive, hf],
        by simp [fetchAndDerive, hf], by simp [fetchAndDerive, hf],
        fun v hv => nomatch hv⟩
    | some w =>
      cases hso : env.socketOk with
      | false =>
        refine ⟨by simp [fetchAndDerive, hf, connectToSocket, hinfo],
          by simp [fetchAndDerive, hf, connectToSocket, hinfo],
          by simp [fetchAndDerive, hf, connectToSocket, hinfo],
          by simp [fetchAndDerive, hf, connectToSocket, hinfo],
          by simp [fetchAndDerive, hf, connectToSocket, hinfo],
          by simp [fetchAndDerive, hf, connectToSocket, hinfo],
          fun v hv => ?_⟩
        cases hv
        exact ⟨by simp [fetchAndDerive, hf, connectToSocket, hinfo],
          fun hcontra => nomatch hcontra⟩
      | true =>
        refine ⟨by simp [fetchAndDerive, hf, connectToSocket, hinfo],
          by simp [fetchAndDerive, hf, connectToSocket, hinfo],
          by simp [fetchAndDerive, hf, connectToSocket, hinfo],
          by simp [fetchAndDerive, hf, connectToSocket, hinfo],
          by simp [fetchAndDerive, hf, connectToSocket, hinfo],
          by simp [fetchAndDerive, hf, connectToSocket, hinfo],
          fun v hv => ?_⟩
        cases hv
        exact ⟨by simp [fetchAndDerive, hf, connectToSocket, hinfo],
          fun _ => by simp [fetchAndDerive, hf, connectToSocket, hinfo]⟩

/-- C9 witness: the amended claim evaluated on a concrete resolved state,
checking locator independence and the unchanged cached fields. -/
theorem setupClient_resolved_skips_locators_witness :
    resolvedState.apiInfo = some sampleApiInfo ∧
    jsTruthyStr resolvedState.region = true ∧
    setupClient
        { noValorantEnv with lockFile := some "other:1:2:3:4", logFile := some ['x'] }
        resolvedState =
      setupClient noValorantEnv resolvedState ∧
    (setupClient noValorantEnv resolvedState).1.apiInfo = resolvedState.apiInfo :=
  ⟨rfl, rfl,
    (setupClient_resolved_skips_locators noValorantEnv resolvedState sampleApiInfo rfl rfl).1
      (some "other:1:2:3:4") (some ['x']),
    (setupClient_resolved_skips_locators noValorantEnv resolvedState sampleApiInfo
      rfl rfl).2.1⟩

/-- C9 counterexample: on a run that fails at the session search, the socket
handle and client version left over from an earlier bootstrap survive
unchanged (and differ from the value a fresh connect would store), refuting
the claim that SocketHandle and the whole DerivedIdentity are refreshed on
every call. -/
theorem setupClient_failed_run_keeps_stale_socket :
    (setupClient noValorantEnv staleState).2.1 = .failed ∧
    (setupClient noValorantEnv staleState).1.socket = some ⟨"wss://stale", "stale-auth"⟩ ∧
    (setupClient noValorantEnv staleState).1.clientVersion = some "old-version" ∧
    connectSocketHandle sampleApiInfo ≠ ⟨"wss://stale", "stale-auth"⟩ := by
  refine ⟨rfl, rfl, rfl, by decide⟩

/-- C10. For every cached state and argument tuple, the desktop-shell variant
and the standalone-process variant construct the same remote URL: same base
host selection, same path, and the same match-history query string including
the `startIndex`/`endIndex`/`queue` defaults. -/
theorem variants_same_request_construction (st : APIState) (path uuid : String)
    (args : Option RemoteArgs) (histArgs : Option MatchHistoryArgs) (resp : HttpResponse) :
    (remoteRequest st path none args resp).1.url = remoteRequestUrlStandalone st path args ∧
    remoteBaseUrl st.region st.shard args = remoteBaseUrlStandalone st.region st.shard args ∧
    matchHistoryParams histArgs = matchHistoryParamsStandalone histArgs ∧
    (getMatchHistory st (some uuid) histArgs resp).1.url =
      getMatchHistoryUrlStandalone st uuid histArgs := by
  refine ⟨rfl, rfl, rfl, rfl⟩
